import Mathlib

/-!
Verification of the pregrasp task builder of agimus-sot
(src/agimus_sot/task/pre_grasp.py).

The Python code is a sequential, side-effecting constructor: it creates
dynamic-graph entities, plugs signals between them, assigns constant signal
values and records the built task.  We embed it as explicit state passing:
a PGState value records everything observable that the methods do (created
entities, registered topics, printed diagnostics, the feature wiring, the
task, the gain, the swap of gripper and handle).  Poses and signal values
are kept symbolic, so that the wiring (which factors, in which order, from
which source) is preserved exactly rather than collapsed into numbers.

Python assertion failures and attribute errors are modelled by an Except
whose error also carries the state reached at the failure point, mirroring
the fact that a raised Python exception leaves the partially mutated
object behind.
-/

set_option maxHeartbeats 1000000
set_option linter.unusedVariables false

namespace AgimusSot

/-- Symbolic SE(3) pose value: named constant poses, closed under inverse
and composition.  Mirrors the pinocchio SE3 values the Python code
manipulates (products are left associated, as Python evaluates them). -/
inductive Pose where
  | base (name : String)
  | inv (p : Pose)
  | mul (p q : Pose)
deriving DecidableEq, Repr

/-- An operational frame, as the OpFrame objects consumed by PreGrasp:
a named frame attached to a link, with a constant local offset lMf from
the link, an owning robot name, and the enabled / controllable flags. -/
structure OpFrame where
  name : String
  fullName : String
  link : String
  fullLink : String
  robotName : String
  lMf : Pose
  enabled : Bool
  controllable : Bool
deriving DecidableEq, Repr

/-- The SoT robot entity as seen by the builder: only its configuration
dimension (sotrobot.dynamic.getDimension()) and camera frame name are
read. -/
structure SotRobot where
  dimension : Nat
  cameraFrame : String
deriving DecidableEq, Repr

/-- Symbolic signal expression: the value carried by a dynamic-graph
signal, kept as a term so that the source of each factor is visible.
kin sig is sotrobot.dynamic.signal(sig); hpp link is the motion-planner
(HPP) joint topic for link; tf topic is a TF listener measurement;
tfDef is a TF listener with a constant default value (the
makeTfListenerDefaultValue helper); ifMeas is the entityIfMatrixHomo
guarded selector whose condition is the availability of the TF topic;
zeroM r c is the r by c zero matrix (np.zeros). -/
inductive SigExpr where
  | constP (p : Pose)
  | kin (sig : String)
  | hpp (link : String)
  | tf (topic : String)
  | tfDef (topic : String) (dflt : Pose)
  | invE (e : SigExpr)
  | mulE (e f : SigExpr)
  | ifMeas (topic : String) (t e : SigExpr)
  | zeroM (rows cols : Nat)
deriving DecidableEq, Repr

/-- One plugable input signal of an entity.  plugged records a plug(...)
made into it, assigned records a .value = ... constant assignment. -/
structure SigInput where
  plugged : Option SigExpr := none
  assigned : Option SigExpr := none
deriving DecidableEq, Repr

/-- The value an input signal effectively presents each cycle.  Modelled
from the dynamic-graph SignalPtr semantics (an external dependency of
this repository): a plugged signal forwards to its source; an assigned
constant is used only while the signal is unplugged. -/
def SigInput.effective (i : SigInput) : Option SigExpr :=
  match i.plugged with
  | some e => some e
  | none => i.assigned

/-- The seven input signals of a sot-core FeaturePose entity. -/
inductive FSig where
  | oMja | jaMfa | jaJja | oMjb | jbMfb | jbJjb | faMfbDes
deriving DecidableEq, Repr

/-- State of the FeaturePose entity built by the task. -/
structure FeatureState where
  name : String
  oMja : SigInput := {}
  jaMfa : SigInput := {}
  jaJja : SigInput := {}
  oMjb : SigInput := {}
  jbMfb : SigInput := {}
  jbJjb : SigInput := {}
  faMfbDes : SigInput := {}
deriving DecidableEq, Repr

def FeatureState.plugSig : FeatureState → FSig → SigExpr → FeatureState
  | f, .oMja, e => { f with oMja := { f.oMja with plugged := some e } }
  | f, .jaMfa, e => { f with jaMfa := { f.jaMfa with plugged := some e } }
  | f, .jaJja, e => { f with jaJja := { f.jaJja with plugged := some e } }
  | f, .oMjb, e => { f with oMjb := { f.oMjb with plugged := some e } }
  | f, .jbMfb, e => { f with jbMfb := { f.jbMfb with plugged := some e } }
  | f, .jbJjb, e => { f with jbJjb := { f.jbJjb with plugged := some e } }
  | f, .faMfbDes, e => { f with faMfbDes := { f.faMfbDes with plugged := some e } }

def FeatureState.assignSig : FeatureState → FSig → SigExpr → FeatureState
  | f, .oMja, e => { f with oMja := { f.oMja with assigned := some e } }
  | f, .jaMfa, e => { f with jaMfa := { f.jaMfa with assigned := some e } }
  | f, .jaJja, e => { f with jaJja := { f.jaJja with assigned := some e } }
  | f, .oMjb, e => { f with oMjb := { f.oMjb with assigned := some e } }
  | f, .jbMfb, e => { f with jbMfb := { f.jbMfb with assigned := some e } }
  | f, .jbJjb, e => { f with jbJjb := { f.jbJjb with assigned := some e } }
  | f, .faMfbDes, e => { f with faMfbDes := { f.faMfbDes with assigned := some e } }

/-- State of the SotTask entity: the features added to it, what is
plugged into its controlGain input, and the setWithDerivative setting. -/
structure TaskState where
  name : String
  features : List String := []
  controlGainSrc : Option String := none
  withDerivative : Option Bool := none
deriving DecidableEq, Repr

/-- State of the SafeGainAdaptive entity: the four computeParameters
arguments and what is plugged into its error input. -/
structure GainState where
  name : String
  params : Option (ℚ × ℚ × ℚ × ℚ) := none
  errorSrc : Option String := none
deriving DecidableEq, Repr

/-- The strategy branch taken by makeTasks (lines 76 to 99). -/
inductive Strategy where
  | absolute | relative | absoluteBasedOnOther | noOp
deriving DecidableEq, Repr

/-- Whole observable state of a PreGrasp object together with the
dynamic-graph world it mutates.  gripper, handle, otherGripper and
otherHandle are the instance attributes set by the constructor (gripper
and handle can be swapped by makeTasks, line 91).  strategy is a ghost
field recording which branch makeTasks took, for specification only.
tasks is the builder task list; its empty initial value is
Modelled from the spec: the Task base class (not under src/) starts the
builder with an empty task list, and a NoOp build returns it empty. -/
structure PGState where
  gripper : OpFrame
  handle : OpFrame
  otherGripper : Option OpFrame := none
  otherHandle : Option OpFrame := none
  entities : List String := []
  opPoints : List String := []
  prints : List String := []
  hppTopics : List String := []
  tfTopics : List String := []
  strategy : Option Strategy := none
  feature : Option FeatureState := none
  task : Option TaskState := none
  gain : Option GainState := none
  tasks : List String := []
deriving DecidableEq, Repr

/-- Result of a builder call: either the final state, or a Python
exception message together with the state reached when it was raised. -/
abbrev Res := Except (String × PGState) PGState

def Res.state : Res → PGState
  | .ok s => s
  | .error (_, s) => s

def Res.isOk : Res → Bool
  | .ok _ => true
  | .error _ => false

def Res.errMsg : Res → Option String
  | .ok _ => none
  | .error (m, _) => some m

@[simp] theorem Res.state_ok (s : PGState) : Res.state (Except.ok s) = s := rfl

@[simp] theorem Res.state_error (m : String) (s : PGState) :
    Res.state (Except.error (m, s)) = s := rfl

@[simp] theorem Res.isOk_ok (s : PGState) : Res.isOk (Except.ok s) = true := rfl

@[simp] theorem Res.isOk_error (m : String) (s : PGState) :
    Res.isOk (Except.error (m, s)) = false := rfl

@[simp] theorem Res.errMsg_ok (s : PGState) : Res.errMsg (Except.ok s) = none := rfl

@[simp] theorem Res.errMsg_error (m : String) (s : PGState) :
    Res.errMsg (Except.error (m, s)) = some m := rfl

/-- PreGrasp.__init__: store the frames; otherGraspOnObject is either
None or the pair (otherGripper, otherHandle). -/
def PreGrasp.init (gripper handle : OpFrame)
    (otherGraspOnObject : Option (OpFrame × OpFrame)) : PGState :=
  { gripper := gripper, handle := handle,
    otherGripper := otherGraspOnObject.map Prod.fst,
    otherHandle := otherGraspOnObject.map Prod.snd }

/-- PreGrasp.meas_suffix. -/
def measSuffix : String := "_measured"

/-- Task._name, Modelled from the spec: the Task base class (not under
src/) builds entity names from the name parts prefixed by the class name
tag; only determinism in the parts matters here. -/
def mkName (parts : List String) : String :=
  String.intercalate "_" ("pregrasp" :: parts)

def createEntity (name : String) (s : PGState) : PGState :=
  { s with entities := s.entities ++ [name] }

def createOpPoint (link : String) (s : PGState) : PGState :=
  { s with opPoints := s.opPoints ++ [link] }

def addPrint (msg : String) (s : PGState) : PGState :=
  { s with prints := s.prints ++ [msg] }

/-- Task.addHppJointTopic, Modelled from the spec: registers interest in
the planner-predicted placement of a link (planner topic interface). -/
def addHppJointTopic (link : String) (s : PGState) : PGState :=
  { s with hppTopics := s.hppTopics ++ [link] }

/-- Task.addTfListenerTopic, Modelled from the spec: registers interest
in a TF-measured relative pose (measurement interface). -/
def addTfListenerTopic (topic : String) (s : PGState) : PGState :=
  { s with tfTopics := s.tfTopics ++ [topic] }

/-- Plug an expression into an input of self.feature.  The Python code
only does this after the FeaturePose was created, so the none branch is
unreachable on all call paths. -/
def plugFeature (which : FSig) (e : SigExpr) (s : PGState) : PGState :=
  match s.feature with
  | none => s
  | some f => { s with feature := some (f.plugSig which e) }

/-- Assign a constant to an input of self.feature (the .value = ...
statements; se3ToTuple only converts the representation and is dropped). -/
def assignFeature (which : FSig) (e : SigExpr) (s : PGState) : PGState :=
  match s.feature with
  | none => s
  | some f => { s with feature := some (f.assignSig which e) }

/-- PreGrasp._plugRobotLink (lines 103 to 125): plug the pose of a link
computable by the SoT robot entity into poseTarget; when withMeasurement,
go through the TF measurement guarded by its availability, with the
kinematic pose as fallback; finally, when a Jacobian target is given,
plug the kinematic Jacobian signal J + linkName into it. -/
def plugRobotLink (robot : SotRobot) (linkName : String) (poseTarget : FSig)
    (jTarget : Option FSig) (withMeasurement : Bool) (s : PGState) : PGState :=
  let s :=
    if withMeasurement then
      let linkNameMeas := linkName ++ measSuffix
      let s := createOpPoint robot.cameraFrame s
      let s := createEntity (linkNameMeas ++ "_wrt_world") s
      let oMl := SigExpr.mulE (.kin robot.cameraFrame) (.tf linkNameMeas)
      let s := createEntity (linkNameMeas ++ "_wrt_world_safe") s
      let s := addTfListenerTopic linkNameMeas s
      plugFeature poseTarget (SigExpr.ifMeas linkNameMeas oMl (.kin linkName)) s
    else
      let s := plugFeature poseTarget (.kin linkName) s
      addPrint ("Plug robot link: no measument for " ++ linkName) s
  match jTarget with
  | some j => plugFeature j (.kin ("J" ++ linkName)) s
  | none => s

/-- PreGrasp._plugObjectLink (lines 133 to 157): plug the pose of a link
not computable by the SoT robot entity; when withMeasurement, use the TF
measurement guarded by its availability with the planner joint topic as
fallback, else take the planner joint topic directly
(extendSignalGetters on the linkName topic). -/
def plugObjectLink (robot : SotRobot) (linkName : String) (outTarget : FSig)
    (withMeasurement : Bool) (s : PGState) : PGState :=
  if withMeasurement then
    let linkNameMeas := linkName ++ measSuffix
    let s := createOpPoint robot.cameraFrame s
    let s := createEntity (linkNameMeas ++ "_wrt_world") s
    let oMl := SigExpr.mulE (.kin robot.cameraFrame) (.tf linkNameMeas)
    let s := createEntity (linkNameMeas ++ "wrt_world") s
    let s := addTfListenerTopic linkNameMeas s
    let s := addHppJointTopic linkName s
    plugFeature outTarget (SigExpr.ifMeas linkNameMeas oMl (.hpp linkName)) s
  else
    let s := addPrint ("Plug object link: no measument for " ++ linkName) s
    plugFeature outTarget (.hpp linkName) s

/-- The four factor product built by PreGrasp._referenceSignal (lines
168 to 173): constant jgMg^-1, then oMjg^-1 with oMjg from the planner
joint topic of the gripper full link, then oMlh from the planner joint
topic of the handle full link, then the constant lhMh. -/
def faMfbDesExpr (g h : OpFrame) : SigExpr :=
  SigExpr.mulE (.constP (.inv g.lMf))
    (SigExpr.mulE (.invE (.hpp g.fullLink))
      (SigExpr.mulE (.hpp h.fullLink) (.constP h.lMf)))

/-- PreGrasp._referenceSignal (lines 163 to 175): build the faMfbDes
entity carrying faMfbDesExpr.  Returns the expression of the sout of the
created entity (the third factor is the signal the handle.fullLink topic
getters were extended with). -/
def referenceSignal (name : String) (g h : OpFrame) (s : PGState) :
    PGState × SigExpr :=
  let s := createEntity (name ++ "_oMjaDes_inv") s
  let s := addHppJointTopic g.fullLink s
  let s := createEntity (name ++ "_faMfbDes") s
  (s, faMfbDesExpr g h)

/-- PreGrasp._createTaskAndGain (lines 177 to 188): create the SotTask
with the feature added, the SafeGainAdaptive with computeParameters
(0.9, 0.1, 0.3, 1.), plug gain.gain into task.controlGain and task.error
into gain.error. -/
def createTaskAndGain (name : String) (s : PGState) : PGState :=
  let featName := match s.feature with | some f => f.name | none => ""
  let s := createEntity (name ++ "_task") s
  let s := createEntity (name ++ "_gain") s
  let task : TaskState :=
    { name := name ++ "_task", features := [featName],
      controlGainSrc := some (name ++ "_gain") }
  let gain : GainState :=
    { name := name ++ "_gain",
      params := some ((9 : ℚ)/10, (1 : ℚ)/10, (3 : ℚ)/10, (1 : ℚ)),
      errorSrc := some (name ++ "_task") }
  { s with task := some task, gain := some gain }

/-- Python task.setWithDerivative. -/
def setTaskWithDerivative (b : Bool) (s : PGState) : PGState :=
  match s.task with
  | none => s
  | some t => { s with task := some { t with withDerivative := some b } }

def derivWarning : String :=
  "Relative pose constraint with derivative is not implemented yet."

/-- PreGrasp._makeAbsolute (lines 191 to 223). -/
def makeAbsolute (robot : SotRobot) (mObj mGrip wd : Bool) (s : PGState) : Res :=
  let name := mkName [s.gripper.name, s.handle.fullName]
  if s.entities.contains (name ++ "_feature") then
    .error ("Entity already exists: " ++ name ++ "_feature", s)
  else
    let s := createEntity (name ++ "_feature") s
    let s := { s with feature := some { name := name ++ "_feature" } }
    let s := createOpPoint s.gripper.link s
    let s := plugRobotLink robot s.gripper.link .oMja (some .jaJja) mGrip s
    let s := assignFeature .jaMfa (.constP s.gripper.lMf) s
    let s := addHppJointTopic s.handle.fullLink s
    let s := plugObjectLink robot s.handle.fullLink .oMjb mObj s
    let s := assignFeature .jbMfb (.constP s.handle.lMf) s
    let s := assignFeature .jbJjb (.zeroM 6 robot.dimension) s
    let p := referenceSignal name s.gripper s.handle s
    let s := plugFeature .faMfbDes p.2 p.1
    let s := createTaskAndGain name s
    let s := if wd then addPrint derivWarning s else s
    let s := setTaskWithDerivative false s
    .ok { s with tasks := [name ++ "_task"] }

/-- PreGrasp._makeRelativeTask (lines 226 to 325).  Only the method = 3
branch of the jbMfb selection is live in the source (the constant
ogMoh-is-identity estimate); the others are dead alternatives. -/
def makeRelativeTask (robot : SotRobot) (mObj mGrip mOther wd : Bool)
    (s : PGState) : Res :=
  match s.otherGripper, s.otherHandle with
  | some og, some oh =>
    if s.handle.robotName ≠ oh.robotName then
      .error ("AssertionError: handle.robotName == otherHandle.robotName", s)
    else if s.handle.link ≠ oh.link then
      .error ("AssertionError: handle.link == otherHandle.link", s)
    else
      let name := mkName [s.gripper.name, s.handle.fullName, "relative",
        og.name, oh.fullName]
      if s.entities.contains (name ++ "_feature") then
        .error ("Entity already exists: " ++ name ++ "_feature", s)
      else
        let s := createEntity (name ++ "_feature") s
        let s := { s with feature := some { name := name ++ "_feature" } }
        let s := createOpPoint s.gripper.link s
        let s := createOpPoint og.link s
        let s := plugRobotLink robot s.gripper.link .oMja (some .jaJja) mGrip s
        let s := assignFeature .jaJja (.zeroM 6 robot.dimension) s
        let s := assignFeature .jaMfa (.constP s.gripper.lMf) s
        let s := plugRobotLink robot og.link .oMjb (some .jbJjb) mOther s
        let s := assignFeature .jbJjb (.zeroM 6 robot.dimension) s
        let s := assignFeature .jbMfb
          (.constP (.mul (.mul og.lMf (.inv oh.lMf)) s.handle.lMf)) s
        let s := addHppJointTopic s.handle.fullLink s
        let p := referenceSignal name s.gripper s.handle s
        let s := plugFeature .faMfbDes p.2 p.1
        let s := createTaskAndGain name s
        let s := if wd then addPrint derivWarning s else s
        let s := setTaskWithDerivative false s
        .ok { s with tasks := [name ++ "_task"] }
  | _, _ => .error ("AttributeError: otherGripper or otherHandle is None", s)

/-- PreGrasp._makeAbsoluteBasedOnOther (lines 332 to 438).  Only the
method = 1 branch of the jbMfb selection is live in the source; inside
it both withMeasurementOfOtherGripperPos sub-branches are live. -/
def makeAbsoluteBasedOnOther (robot : SotRobot) (mObj mGrip mOther wd : Bool)
    (s : PGState) : Res :=
  match s.otherGripper, s.otherHandle with
  | some og, some oh =>
    if s.handle.robotName ≠ oh.robotName then
      .error ("AssertionError: handle.robotName == otherHandle.robotName", s)
    else if s.handle.link ≠ oh.link then
      .error ("AssertionError: handle.link == otherHandle.link", s)
    else
      let name := mkName [s.gripper.fullName, s.handle.fullName, "based",
        og.name, oh.fullName]
      if s.entities.contains (name ++ "_feature") then
        .error ("Entity already exists: " ++ name ++ "_feature", s)
      else
        let s := createEntity (name ++ "_feature") s
        let s := { s with feature := some { name := name ++ "_feature" } }
        let s := createOpPoint og.link s
        let s := addHppJointTopic s.gripper.fullLink s
        let s := plugObjectLink robot s.gripper.fullLink .oMja mGrip s
        let s := assignFeature .jaMfa (.constP s.gripper.lMf) s
        let s := assignFeature .jaJja (.zeroM 6 robot.dimension) s
        let s := plugRobotLink robot og.link .oMjb (some .jbJjb) mOther s
        let s :=
          if mOther then
            let s := createEntity (name ++ "_jbMfb") s
            let tfTopic := oh.fullLink ++ measSuffix ++ "_wrt_" ++
              og.link ++ measSuffix
            let s := createEntity (name ++ "_defaultValue") s
            let s := addTfListenerTopic tfTopic s
            plugFeature .jbMfb
              (SigExpr.mulE (.tfDef tfTopic (.mul og.lMf (.inv oh.lMf)))
                (.constP s.handle.lMf)) s
          else
            let s := createEntity (og.link ++ "_inv") s
            let s := createEntity (name ++ "_jbMfb_meas") s
            let tfTopic := oh.fullLink ++ measSuffix
            let ogMo := SigExpr.mulE (.invE (.kin og.link))
              (SigExpr.mulE (.kin robot.cameraFrame)
                (SigExpr.mulE (.tf tfTopic) (.constP s.handle.lMf)))
            let s := createEntity (name ++ "_jbMfb_cond") s
            let s := addTfListenerTopic tfTopic s
            plugFeature .jbMfb
              (SigExpr.ifMeas tfTopic ogMo
                (.constP (.mul (.mul og.lMf (.inv oh.lMf)) s.handle.lMf))) s
        let s := addHppJointTopic s.handle.fullLink s
        let p := referenceSignal name s.gripper s.handle s
        let s := plugFeature .faMfbDes p.2 p.1
        let s := createTaskAndGain name s
        let s := if wd then addPrint derivWarning s else s
        let s := setTaskWithDerivative false s
        .ok { s with tasks := [name ++ "_task"] }
  | _, _ => .error ("AttributeError: otherGripper or otherHandle is None", s)

/-- PreGrasp.makeTasks (lines 71 to 99): assert the enablement
preconditions, then select the strategy from the controllable flags,
swapping gripper and handle in the AbsoluteBasedOnOther case when the
handle and otherHandle owning robots differ while the gripper shares the
otherHandle owning robot. -/
def makeTasks (robot : SotRobot)
    (mObj mGrip mOther wd : Bool) (s : PGState) : Res :=
  if !s.gripper.enabled then
    .error ("AssertionError: gripper.enabled", s)
  else if !(s.otherGripper.all fun og => og.enabled) then
    .error ("AssertionError: otherGripper is None or otherGripper.enabled", s)
  else if s.gripper.controllable then
    if s.otherGripper.any fun og => og.controllable then
      makeRelativeTask robot mObj mGrip mOther wd
        { s with strategy := some .relative }
    else
      makeAbsolute robot mObj mGrip wd { s with strategy := some .absolute }
  else
    match s.otherGripper with
    | some og =>
      if og.controllable then
        match s.otherHandle with
        | some oh =>
          let s := { s with strategy := some .absoluteBasedOnOther }
          let s :=
            if s.handle.robotName ≠ oh.robotName ∧
                s.gripper.robotName = oh.robotName then
              let s := addPrint ("swapping gripper " ++ s.gripper.fullName ++
                " and handle " ++ s.handle.fullName) s
              { s with gripper := s.handle, handle := s.gripper }
            else s
          makeAbsoluteBasedOnOther robot mObj mGrip mOther wd s
        | none => .error ("AttributeError: otherHandle is None", s)
      else
        .ok (addPrint "Both grippers are disabled so nothing can be done"
          { s with strategy := some .noOp })
    | none =>
      .ok (addPrint "Both grippers are disabled so nothing can be done"
        { s with strategy := some .noOp })

/-- PreGrasp.addVisualServoingTrace (lines 440 to 444): reads
self.feature.name, so it raises an AttributeError when no strategy
branch assigned the feature; otherwise it registers the desired and
actual relative pose series (filename_escape only rewrites characters
and is dropped; the base class addTrace is Modelled from the spec as the
optional trace sink registration, which always succeeds). -/
def addVisualServoingTrace (s : PGState) :
    Except String (List (String × String)) :=
  match s.feature with
  | none => .error "AttributeError: PreGrasp object has no attribute feature"
  | some f =>
    .ok [ (f.name ++ ".faMfbDes", f.name ++ ".desired"),
          (f.name ++ ".faMfb", f.name ++ ".actual") ]

/-! Concrete frames used to exercise the builder on closed inputs. -/

/-- A controllable robot gripper frame. -/
def gEx : OpFrame :=
  { name := "gr", fullName := "talos/gr", link := "wrist", fullLink := "talos/wrist",
    robotName := "talos", lMf := .base "gMf", enabled := true, controllable := true }

/-- An object handle frame (not part of the controlled kinematic chain). -/
def hEx : OpFrame :=
  { name := "ha", fullName := "box/ha", link := "base_link", fullLink := "box/base_link",
    robotName := "box", lMf := .base "hMf", enabled := true, controllable := false }

/-- A second controllable gripper frame. -/
def ogEx : OpFrame :=
  { name := "og", fullName := "talos/og", link := "wrist2", fullLink := "talos/wrist2",
    robotName := "talos", lMf := .base "ogMf", enabled := true, controllable := true }

/-- A second handle on the same object body as hEx. -/
def ohEx : OpFrame :=
  { name := "oh", fullName := "box/oh", link := "base_link", fullLink := "box/base_link",
    robotName := "box", lMf := .base "ohMf", enabled := true, controllable := false }

/-- An uncontrollable environment gripper (for the placement cases). -/
def gFixEx : OpFrame :=
  { name := "env", fullName := "env/contact", link := "table", fullLink := "env/table",
    robotName := "env", lMf := .base "envMf", enabled := true, controllable := false }

/-- A disabled gripper. -/
def gDisEx : OpFrame := { gEx with enabled := false }

/-- A disabled second gripper. -/
def ogDisEx : OpFrame := { ogEx with enabled := false }

/-- An uncontrollable second gripper. -/
def ogFixEx : OpFrame := { ogEx with controllable := false }

/-- The SoT robot used in the closed examples. -/
def robotEx : SotRobot := { dimension := 7, cameraFrame := "camera" }

/-! Theorems.  The helper definitions are unfolded by simp; entity names
(mkName, measSuffix) are kept opaque since no property depends on their
spelling. -/

attribute [simp] SigInput.effective FeatureState.plugSig FeatureState.assignSig
  PreGrasp.init createEntity createOpPoint
  addPrint addHppJointTopic addTfListenerTopic plugFeature assignFeature
  plugRobotLink plugObjectLink referenceSignal createTaskAndGain
  setTaskWithDerivative addVisualServoingTrace

theorem makeAbsolute_preserves (robot : SotRobot) (mObj mGrip wd : Bool)
    (s : PGState) :
    (makeAbsolute robot mObj mGrip wd s).state.strategy = s.strategy ∧
    (makeAbsolute robot mObj mGrip wd s).state.gripper = s.gripper ∧
    (makeAbsolute robot mObj mGrip wd s).state.handle = s.handle := by
  by_cases hc : mkName [s.gripper.name, s.handle.fullName] ++ "_feature"
      ∈ s.entities <;>
    cases mGrip <;> cases mObj <;> cases wd <;> simp [makeAbsolute, Res.state, hc]

theorem makeRelativeTask_preserves (robot : SotRobot) (mObj mGrip mOther wd : Bool)
    (s : PGState) :
    (makeRelativeTask robot mObj mGrip mOther wd s).state.strategy = s.strategy ∧
    (makeRelativeTask robot mObj mGrip mOther wd s).state.gripper = s.gripper ∧
    (makeRelativeTask robot mObj mGrip mOther wd s).state.handle = s.handle := by
  cases hog : s.otherGripper with
  | none => simp [makeRelativeTask, Res.state, hog]
  | some og =>
    cases hoh : s.otherHandle with
    | none => simp [makeRelativeTask, Res.state, hog, hoh]
    | some oh =>
      by_cases hr : s.handle.robotName = oh.robotName
      · by_cases hl : s.handle.link = oh.link
        · by_cases hc : mkName [s.gripper.name, s.handle.fullName, "relative",
              og.name, oh.fullName] ++ "_feature" ∈ s.entities <;>
            cases mGrip <;> cases mOther <;> cases wd <;>
            simp [makeRelativeTask, Res.state, hog, hoh, hr, hl, hc]
        · simp [makeRelativeTask, Res.state, hog, hoh, hr, hl]
      · simp [makeRelativeTask, Res.state, hog, hoh, hr]

theorem makeAbsoluteBasedOnOther_preserves (robot : SotRobot)
    (mObj mGrip mOther wd : Bool) (s : PGState) :
    (makeAbsoluteBasedOnOther robot mObj mGrip mOther wd s).state.strategy
      = s.strategy ∧
    (makeAbsoluteBasedOnOther robot mObj mGrip mOther wd s).state.gripper
      = s.gripper ∧
    (makeAbsoluteBasedOnOther robot mObj mGrip mOther wd s).state.handle
      = s.handle := by
  cases hog : s.otherGripper with
  | none => simp [makeAbsoluteBasedOnOther, Res.state, hog]
  | some og =>
    cases hoh : s.otherHandle with
    | none => simp [makeAbsoluteBasedOnOther, Res.state, hog, hoh]
    | some oh =>
      by_cases hr : s.handle.robotName = oh.robotName
      · by_cases hl : s.handle.link = oh.link
        · by_cases hc : mkName [s.gripper.fullName, s.handle.fullName, "based",
              og.name, oh.fullName] ++ "_feature" ∈ s.entities <;>
            cases mGrip <;> cases mOther <;> cases wd <;>
            simp [makeAbsoluteBasedOnOther, Res.state, hog, hoh, hr, hl, hc]
        · simp [makeAbsoluteBasedOnOther, Res.state, hog, hoh, hr, hl]
      · simp [makeAbsoluteBasedOnOther, Res.state, hog, hoh, hr]

/-- Decision table of section 4.4 of the specification, written from the
words of the spec: the strategy is a function of gripper.controllable and
of otherGripper presence and controllability alone. -/
def specStrategy : Bool → Option Bool → Strategy
  | true, some true => .relative
  | true, _ => .absolute
  | false, some true => .absoluteBasedOnOther
  | false, _ => .noOp

@[simp] theorem makeAbsolute_state_strategy (robot : SotRobot)
    (mObj mGrip wd : Bool) (s : PGState) :
    (makeAbsolute robot mObj mGrip wd s).state.strategy = s.strategy :=
  (makeAbsolute_preserves robot mObj mGrip wd s).1

@[simp] theorem makeAbsolute_state_gripper (robot : SotRobot)
    (mObj mGrip wd : Bool) (s : PGState) :
    (makeAbsolute robot mObj mGrip wd s).state.gripper = s.gripper :=
  (makeAbsolute_preserves robot mObj mGrip wd s).2.1

@[simp] theorem makeAbsolute_state_handle (robot : SotRobot)
    (mObj mGrip wd : Bool) (s : PGState) :
    (makeAbsolute robot mObj mGrip wd s).state.handle = s.handle :=
  (makeAbsolute_preserves robot mObj mGrip wd s).2.2

@[simp] theorem makeRelativeTask_state_strategy (robot : SotRobot)
    (mObj mGrip mOther wd : Bool) (s : PGState) :
    (makeRelativeTask robot mObj mGrip mOther wd s).state.strategy = s.strategy :=
  (makeRelativeTask_preserves robot mObj mGrip mOther wd s).1

@[simp] theorem makeRelativeTask_state_gripper (robot : SotRobot)
    (mObj mGrip mOther wd : Bool) (s : PGState) :
    (makeRelativeTask robot mObj mGrip mOther wd s).state.gripper = s.gripper :=
  (makeRelativeTask_preserves robot mObj mGrip mOther wd s).2.1

@[simp] theorem makeRelativeTask_state_handle (robot : SotRobot)
    (mObj mGrip mOther wd : Bool) (s : PGState) :
    (makeRelativeTask robot mObj mGrip mOther wd s).state.handle = s.handle :=
  (makeRelativeTask_preserves robot mObj mGrip mOther wd s).2.2

@[simp] theorem makeAbsoluteBasedOnOther_state_strategy (robot : SotRobot)
    (mObj mGrip mOther wd : Bool) (s : PGState) :
    (makeAbsoluteBasedOnOther robot mObj mGrip mOther wd s).state.strategy
      = s.strategy :=
  (makeAbsoluteBasedOnOther_preserves robot mObj mGrip mOther wd s).1

@[simp] theorem makeAbsoluteBasedOnOther_state_gripper (robot : SotRobot)
    (mObj mGrip mOther wd : Bool) (s : PGState) :
    (makeAbsoluteBasedOnOther robot mObj mGrip mOther wd s).state.gripper
      = s.gripper :=
  (makeAbsoluteBasedOnOther_preserves robot mObj mGrip mOther wd s).2.1

@[simp] theorem makeAbsoluteBasedOnOther_state_handle (robot : SotRobot)
    (mObj mGrip mOther wd : Bool) (s : PGState) :
    (makeAbsoluteBasedOnOther robot mObj mGrip mOther wd s).state.handle
      = s.handle :=
  (makeAbsoluteBasedOnOther_preserves robot mObj mGrip mOther wd s).2.2

/-- C1: for every PreGrasp whose gripper is enabled (and whose
otherGripper, when present, is enabled), the strategy branch taken by
makeTasks is a pure function of the triple (gripper.controllable,
otherGripper present, otherGripper.controllable) and matches the section
4.4 decision table: it is independent of the robot, of the four boolean
flags and of every other field of the frames. -/
theorem C1_strategy_pure_table (g h : OpFrame)
    (other : Option (OpFrame × OpFrame)) (robot : SotRobot)
    (mObj mGrip mOther wd : Bool)
    (hge : g.enabled = true)
    (hoge : ∀ og oh, other = some (og, oh) → og.enabled = true) :
    (makeTasks robot mObj mGrip mOther wd (PreGrasp.init g h other)).state.strategy
      = some (specStrategy g.controllable (other.map fun p => p.1.controllable)) := by
  cases other with
  | none =>
    cases hgc : g.controllable <;> simp [makeTasks, hge, hgc, specStrategy]
  | some p =>
    obtain ⟨og, oh⟩ := p
    have hoe := hoge og oh rfl
    cases hgc : g.controllable <;> cases hogc : og.controllable <;>
      simp [makeTasks, hge, hoe, hgc, hogc, specStrategy, apply_ite]

/-- Witness for C1 at concrete frames (relative case). -/
theorem C1_strategy_pure_table_witness :
    gEx.enabled = true ∧
    (makeTasks robotEx false false false false
        (PreGrasp.init gEx hEx (some (ogEx, ohEx)))).state.strategy
      = some (specStrategy gEx.controllable (some ogEx.controllable)) :=
  ⟨rfl, C1_strategy_pure_table gEx hEx (some (ogEx, ohEx)) robotEx
    false false false false rfl (fun og oh hp => by cases hp; rfl)⟩

/-- Gripper frame for the swap scenario: it shares the owning robot of
ohEx while hSwEx does not. -/
def gSwEx : OpFrame :=
  { name := "gsw", fullName := "box/gsw", link := "blk", fullLink := "box/blk",
    robotName := "box", lMf := .base "gswMf", enabled := true, controllable := false }

/-- Handle frame for the swap scenario, owned by the environment. -/
def hSwEx : OpFrame :=
  { name := "hsw", fullName := "env/hsw", link := "table", fullLink := "env/table",
    robotName := "env", lMf := .base "hswMf", enabled := true, controllable := false }

/-- C5: in the AbsoluteBasedOnOther branch the roles of gripper and
handle are swapped exactly when handle and otherHandle have different
owning robots while gripper and otherHandle share one; in every other
case (and in all other branches) gripper and handle keep their roles;
and under the second conjunct the first is equivalent to handle and
gripper having different owning robots. -/
theorem C5_gripper_handle_swap (g h : OpFrame)
    (other : Option (OpFrame × OpFrame)) (robot : SotRobot)
    (mObj mGrip mOther wd : Bool)
    (hge : g.enabled = true)
    (hoge : ∀ og oh, other = some (og, oh) → og.enabled = true) :
    (∀ og oh, other = some (og, oh) → g.controllable = false →
      og.controllable = true →
      ((makeTasks robot mObj mGrip mOther wd (PreGrasp.init g h other)).state.gripper,
       (makeTasks robot mObj mGrip mOther wd (PreGrasp.init g h other)).state.handle) =
        if h.robotName ≠ oh.robotName ∧ g.robotName = oh.robotName
        then (h, g) else (g, h)) ∧
    ((g.controllable = true ∨
        (∀ og oh, other = some (og, oh) → og.controllable = false)) →
      ((makeTasks robot mObj mGrip mOther wd (PreGrasp.init g h other)).state.gripper,
       (makeTasks robot mObj mGrip mOther wd (PreGrasp.init g h other)).state.handle) =
        (g, h)) ∧
    (∀ og oh, other = some (og, oh) → g.robotName = oh.robotName →
      (¬ h.robotName = oh.robotName ↔ ¬ h.robotName = g.robotName)) := by
  refine ⟨?_, ?_, ?_⟩
  · intro og oh hother hgc hogc
    subst hother
    have hoe := hoge og oh rfl
    by_cases hsw : h.robotName ≠ oh.robotName ∧ g.robotName = oh.robotName <;>
      simp [makeTasks, hge, hoe, hgc, hogc, hsw]
  · intro hcase
    cases other with
    | none => cases hgc : g.controllable <;> simp [makeTasks, hge, hgc]
    | some p =>
      obtain ⟨og, oh⟩ := p
      have hoe := hoge og oh rfl
      rcases hcase with hgc | hnogc
      · cases hogc : og.controllable <;> simp [makeTasks, hge, hoe, hgc, hogc]
      · have hogc := hnogc og oh rfl
        cases hgc : g.controllable <;> simp [makeTasks, hge, hoe, hgc, hogc]
  · intro og oh hother hgr
    rw [← hgr]

/-- Witness for C5: a concrete swap case (different owning robots for
handle and otherHandle, same for gripper and otherHandle) really swaps. -/
theorem C5_gripper_handle_swap_witness :
    gSwEx.enabled = true ∧ gSwEx.controllable = false ∧
    ogEx.controllable = true ∧
    ((makeTasks robotEx false false false false
        (PreGrasp.init gSwEx hSwEx (some (ogEx, ohEx)))).state.gripper,
     (makeTasks robotEx false false false false
        (PreGrasp.init gSwEx hSwEx (some (ogEx, ohEx)))).state.handle) =
      (hSwEx, gSwEx) := by
  have hx := (C5_gripper_handle_swap gSwEx hSwEx (some (ogEx, ohEx)) robotEx
    false false false false rfl
    (by intro og oh hp; cases hp; rfl)).1 ogEx ohEx rfl rfl rfl
  refine ⟨rfl, rfl, rfl, ?_⟩
  simpa [gSwEx, hSwEx, ohEx] using hx

/-- Helper: on the NoOp branch the run succeeds and its final state is
the initial one with only the diagnostic printed and the ghost strategy
set. -/
theorem noop_run_state (g h : OpFrame)
    (other : Option (OpFrame × OpFrame)) (robot : SotRobot)
    (mObj mGrip mOther wd : Bool)
    (hge : g.enabled = true)
    (hoge : ∀ og oh, other = some (og, oh) → og.enabled = true)
    (hgc : g.controllable = false)
    (hogc : ∀ og oh, other = some (og, oh) → og.controllable = false) :
    makeTasks robot mObj mGrip mOther wd (PreGrasp.init g h other)
      = Except.ok (addPrint "Both grippers are disabled so nothing can be done"
          { PreGrasp.init g h other with strategy := some Strategy.noOp }) := by
  cases other with
  | none => simp [makeTasks, hge, hgc]
  | some p =>
    obtain ⟨og, oh⟩ := p
    have hoe := hoge og oh rfl
    have hoc := hogc og oh rfl
    simp [makeTasks, hge, hgc, hoe, hoc]

/-- C8: when the gripper is not controllable and the other gripper is
absent or not controllable, makeTasks only prints the diagnostic: it
creates no entity (in particular no FeaturePose), no task, no gain, and
the task list stays empty. -/
theorem C8_noop_builds_nothing (g h : OpFrame)
    (other : Option (OpFrame × OpFrame)) (robot : SotRobot)
    (mObj mGrip mOther wd : Bool)
    (hge : g.enabled = true)
    (hoge : ∀ og oh, other = some (og, oh) → og.enabled = true)
    (hgc : g.controllable = false)
    (hogc : ∀ og oh, other = some (og, oh) → og.controllable = false) :
    (makeTasks robot mObj mGrip mOther wd (PreGrasp.init g h other)).isOk = true ∧
    (makeTasks robot mObj mGrip mOther wd (PreGrasp.init g h other)).state.feature = none ∧
    (makeTasks robot mObj mGrip mOther wd (PreGrasp.init g h other)).state.task = none ∧
    (makeTasks robot mObj mGrip mOther wd (PreGrasp.init g h other)).state.gain = none ∧
    (makeTasks robot mObj mGrip mOther wd (PreGrasp.init g h other)).state.tasks = [] ∧
    (makeTasks robot mObj mGrip mOther wd (PreGrasp.init g h other)).state.entities = [] ∧
    (makeTasks robot mObj mGrip mOther wd (PreGrasp.init g h other)).state.prints =
      ["Both grippers are disabled so nothing can be done"] ∧
    (makeTasks robot mObj mGrip mOther wd (PreGrasp.init g h other)).state.strategy =
      some Strategy.noOp := by
  rw [noop_run_state g h other robot mObj mGrip mOther wd hge hoge hgc hogc]
  simp

/-- Witness for C8 at a concrete NoOp input. -/
theorem C8_noop_builds_nothing_witness :
    gFixEx.enabled = true ∧ gFixEx.controllable = false ∧
    (makeTasks robotEx true true true true
        (PreGrasp.init gFixEx hEx (some (ogFixEx, ohEx)))).state.tasks = [] ∧
    (makeTasks robotEx true true true true
        (PreGrasp.init gFixEx hEx (some (ogFixEx, ohEx)))).state.feature = none :=
  ⟨rfl, rfl,
    (C8_noop_builds_nothing gFixEx hEx (some (ogFixEx, ohEx)) robotEx
      true true true true rfl (by intro og oh hp; cases hp; rfl) rfl
      (by intro og oh hp; cases hp; rfl)).2.2.2.2.1,
    (C8_noop_builds_nothing gFixEx hEx (some (ogFixEx, ohEx)) robotEx
      true true true true rfl (by intro og oh hp; cases hp; rfl) rfl
      (by intro og oh hp; cases hp; rfl)).2.1⟩

/-- C10: the trace helper reads self.feature, so it raises an attribute
error on a PreGrasp that never ran makeTasks and on one whose makeTasks
took the NoOp branch, and succeeds exactly on a state whose feature was
built, tracing the desired and actual relative poses of that feature. -/
theorem C10_trace_requires_feature (g h : OpFrame)
    (other : Option (OpFrame × OpFrame)) (robot : SotRobot)
    (mObj mGrip mOther wd : Bool) :
    (addVisualServoingTrace (PreGrasp.init g h other) =
      Except.error "AttributeError: PreGrasp object has no attribute feature") ∧
    (g.enabled = true →
      (∀ og oh, other = some (og, oh) → og.enabled = true) →
      g.controllable = false →
      (∀ og oh, other = some (og, oh) → og.controllable = false) →
      addVisualServoingTrace
          (makeTasks robot mObj mGrip mOther wd (PreGrasp.init g h other)).state =
        Except.error "AttributeError: PreGrasp object has no attribute feature") ∧
    (∀ s f, s.feature = some f →
      addVisualServoingTrace s =
        Except.ok [ (f.name ++ ".faMfbDes", f.name ++ ".desired"),
                    (f.name ++ ".faMfb", f.name ++ ".actual") ]) := by
  refine ⟨by simp, ?_, ?_⟩
  · intro hge hoge hgc hogc
    rw [noop_run_state g h other robot mObj mGrip mOther wd hge hoge hgc hogc]
    simp
  · intro s f hf
    simp [hf]

/-- Witness for C10: never-called and NoOp states raise, a built state
traces its feature. -/
theorem C10_trace_requires_feature_witness :
    (addVisualServoingTrace (PreGrasp.init gEx hEx none) =
      Except.error "AttributeError: PreGrasp object has no attribute feature") ∧
    (addVisualServoingTrace
        (makeTasks robotEx false false false false
          (PreGrasp.init gFixEx hEx none)).state =
      Except.error "AttributeError: PreGrasp object has no attribute feature") := by
  refine ⟨(C10_trace_requires_feature gEx hEx none robotEx false false false false).1, ?_⟩
  exact (C10_trace_requires_feature gFixEx hEx none robotEx
    false false false false).2.1 rfl (by intro og oh hp; cases hp)
    rfl (by intro og oh hp; cases hp)

/-- C2: in every strategy branch that builds a task, the desired
relative pose plugged into the feature faMfbDes input is the four factor
product gripper.lMf inverse, times the inverse of the planner joint pose
of the gripper full link, times the planner joint pose of the handle
full link, times handle.lMf, in that order, for the gripper and handle
the builder ended with. -/
theorem C2_desired_pose_four_factors (g h : OpFrame)
    (other : Option (OpFrame × OpFrame)) (robot : SotRobot)
    (mObj mGrip mOther wd : Bool)
    (hf : ((makeTasks robot mObj mGrip mOther wd
        (PreGrasp.init g h other)).state.feature).isSome = true) :
    Option.map (fun fs => fs.faMfbDes.plugged)
        (makeTasks robot mObj mGrip mOther wd
          (PreGrasp.init g h other)).state.feature
      = some (some (faMfbDesExpr
          (makeTasks robot mObj mGrip mOther wd
            (PreGrasp.init g h other)).state.gripper
          (makeTasks robot mObj mGrip mOther wd
            (PreGrasp.init g h other)).state.handle)) := by
  cases other with
  | none =>
    cases hge : g.enabled
    · simp [makeTasks, Res.state, hge] at hf
    · cases hgc : g.controllable
      · simp [makeTasks, Res.state, hge, hgc] at hf
      · cases mGrip <;> cases mObj <;> cases wd <;>
          simp [makeTasks, makeAbsolute, Res.state, hge, hgc]
  | some p =>
    obtain ⟨og, oh⟩ := p
    cases hge : g.enabled
    · simp [makeTasks, Res.state, hge] at hf
    · cases hoge : og.enabled
      · simp [makeTasks, Res.state, hge, hoge] at hf
      · cases hgc : g.controllable
        · cases hogc : og.controllable
          · simp [makeTasks, Res.state, hge, hoge, hgc, hogc] at hf
          · by_cases hsw : ¬ h.robotName = oh.robotName ∧
                g.robotName = oh.robotName
            · by_cases hgl : g.link = oh.link
              · cases mGrip <;> cases mOther <;> cases wd <;>
                  simp [makeTasks, makeAbsoluteBasedOnOther, Res.state,
                    hge, hoge, hgc, hogc, hsw, hsw.2, hgl]
              · simp [makeTasks, makeAbsoluteBasedOnOther, Res.state,
                  hge, hoge, hgc, hogc, hsw, hsw.2, hgl] at hf
            · by_cases hr : h.robotName = oh.robotName
              · by_cases hl : h.link = oh.link
                · cases mGrip <;> cases mOther <;> cases wd <;>
                    simp [makeTasks, makeAbsoluteBasedOnOther, Res.state,
                      hge, hoge, hgc, hogc, hsw, hr, hl]
                · simp [makeTasks, makeAbsoluteBasedOnOther, Res.state,
                    hge, hoge, hgc, hogc, hsw, hr, hl] at hf
              · have hgr : ¬ g.robotName = oh.robotName :=
                  fun hh => hsw ⟨hr, hh⟩
                simp [makeTasks, makeAbsoluteBasedOnOther, Res.state,
                  hge, hoge, hgc, hogc, hr, hgr] at hf
        · cases hogc : og.controllable
          · cases mGrip <;> cases mObj <;> cases wd <;>
              simp [makeTasks, makeAbsolute, Res.state, hge, hoge, hgc, hogc]
          · by_cases hr : h.robotName = oh.robotName
            · by_cases hl : h.link = oh.link
              · cases mGrip <;> cases mOther <;> cases wd <;>
                  simp [makeTasks, makeRelativeTask, Res.state,
                    hge, hoge, hgc, hogc, hr, hl]
              · simp [makeTasks, makeRelativeTask, Res.state,
                  hge, hoge, hgc, hogc, hr, hl] at hf
            · simp [makeTasks, makeRelativeTask, Res.state,
                hge, hoge, hgc, hogc, hr] at hf

/-- Witness for C2 at the concrete absolute build. -/
theorem C2_desired_pose_four_factors_witness :
    ((makeTasks robotEx false false false false
        (PreGrasp.init gEx hEx none)).state.feature).isSome = true ∧
    Option.map (fun fs => fs.faMfbDes.plugged)
        (makeTasks robotEx false false false false
          (PreGrasp.init gEx hEx none)).state.feature
      = some (some (faMfbDesExpr
          (makeTasks robotEx false false false false
            (PreGrasp.init gEx hEx none)).state.gripper
          (makeTasks robotEx false false false false
            (PreGrasp.init gEx hEx none)).state.handle)) :=
  ⟨by decide, C2_desired_pose_four_factors gEx hEx none robotEx
    false false false false (by decide)⟩

/-- C4: in every build, a Jacobian input of the feature is the
kinematic-model Jacobian signal of the corresponding link exactly for
the controllable side, and the 6 by N zero matrix (N the configuration
dimension) for the fixed side: Absolute plugs the gripper Jacobian and
zeroes the handle side, Relative plugs both gripper Jacobians (both
frames controllable), AbsoluteBasedOnOther zeroes the gripper side and
plugs the other-gripper Jacobian.  The effective value is the one a
plugged dynamic-graph signal presents (a plug takes precedence over a
later constant assignment). -/
theorem C4_jacobian_inputs (g h : OpFrame)
    (other : Option (OpFrame × OpFrame)) (robot : SotRobot)
    (mObj mGrip mOther wd : Bool)
    (hf : ((makeTasks robot mObj mGrip mOther wd
        (PreGrasp.init g h other)).state.feature).isSome = true) :
    ((makeTasks robot mObj mGrip mOther wd
        (PreGrasp.init g h other)).state.strategy = some Strategy.absolute →
      g.controllable = true ∧
      Option.map (fun fs => fs.jaJja.effective)
          (makeTasks robot mObj mGrip mOther wd
            (PreGrasp.init g h other)).state.feature
        = some (some (SigExpr.kin ("J" ++ g.link))) ∧
      Option.map (fun fs => fs.jbJjb.effective)
          (makeTasks robot mObj mGrip mOther wd
            (PreGrasp.init g h other)).state.feature
        = some (some (SigExpr.zeroM 6 robot.dimension))) ∧
    (∀ og oh, other = some (og, oh) →
      ((makeTasks robot mObj mGrip mOther wd
          (PreGrasp.init g h other)).state.strategy = some Strategy.relative →
        g.controllable = true ∧ og.controllable = true ∧
        Option.map (fun fs => fs.jaJja.effective)
            (makeTasks robot mObj mGrip mOther wd
              (PreGrasp.init g h other)).state.feature
          = some (some (SigExpr.kin ("J" ++ g.link))) ∧
        Option.map (fun fs => fs.jbJjb.effective)
            (makeTasks robot mObj mGrip mOther wd
              (PreGrasp.init g h other)).state.feature
          = some (some (SigExpr.kin ("J" ++ og.link)))) ∧
      ((makeTasks robot mObj mGrip mOther wd
          (PreGrasp.init g h other)).state.strategy
            = some Strategy.absoluteBasedOnOther →
        g.controllable = false ∧ og.controllable = true ∧
        Option.map (fun fs => fs.jaJja.effective)
            (makeTasks robot mObj mGrip mOther wd
              (PreGrasp.init g h other)).state.feature
          = some (some (SigExpr.zeroM 6 robot.dimension)) ∧
        Option.map (fun fs => fs.jbJjb.effective)
            (makeTasks robot mObj mGrip mOther wd
              (PreGrasp.init g h other)).state.feature
          = some (some (SigExpr.kin ("J" ++ og.link))))) := by
  cases other with
  | none =>
    cases hge : g.enabled
    · simp [makeTasks, Res.state, hge] at hf
    · cases hgc : g.controllable
      · simp [makeTasks, Res.state, hge, hgc] at hf
      · cases mGrip <;> cases mObj <;> cases wd <;>
          simp [makeTasks, makeAbsolute, Res.state, hge, hgc]
  | some p =>
    obtain ⟨og, oh⟩ := p
    cases hge : g.enabled
    · simp [makeTasks, Res.state, hge] at hf
    · cases hoge : og.enabled
      · simp [makeTasks, Res.state, hge, hoge] at hf
      · cases hgc : g.controllable
        · cases hogc : og.controllable
          · simp [makeTasks, Res.state, hge, hoge, hgc, hogc] at hf
          · by_cases hsw : ¬ h.robotName = oh.robotName ∧
                g.robotName = oh.robotName
            · by_cases hgl : g.link = oh.link
              · cases mGrip <;> cases mOther <;> cases wd <;>
                  simp [makeTasks, makeAbsoluteBasedOnOther, Res.state,
                    hge, hoge, hgc, hogc, hsw, hsw.2, hgl]
              · simp [makeTasks, makeAbsoluteBasedOnOther, Res.state,
                  hge, hoge, hgc, hogc, hsw, hsw.2, hgl] at hf
            · by_cases hr : h.robotName = oh.robotName
              · by_cases hl : h.link = oh.link
                · cases mGrip <;> cases mOther <;> cases wd <;>
                    simp [makeTasks, makeAbsoluteBasedOnOther, Res.state,
                      hge, hoge, hgc, hogc, hsw, hr, hl]
                · simp [makeTasks, makeAbsoluteBasedOnOther, Res.state,
                    hge, hoge, hgc, hogc, hsw, hr, hl] at hf
              · have hgr : ¬ g.robotName = oh.robotName :=
                  fun hh => hsw ⟨hr, hh⟩
                simp [makeTasks, makeAbsoluteBasedOnOther, Res.state,
                  hge, hoge, hgc, hogc, hr, hgr] at hf
        · cases hogc : og.controllable
          · cases mGrip <;> cases mObj <;> cases wd <;>
              simp [makeTasks, makeAbsolute, Res.state, hge, hoge, hgc, hogc]
          · by_cases hr : h.robotName = oh.robotName
            · by_cases hl : h.link = oh.link
              · cases mGrip <;> cases mOther <;> cases wd <;>
                  simp [makeTasks, makeRelativeTask, Res.state,
                    hge, hoge, hgc, hogc, hr, hl]
              · simp [makeTasks, makeRelativeTask, Res.state,
                  hge, hoge, hgc, hogc, hr, hl] at hf
            · simp [makeTasks, makeRelativeTask, Res.state,
                hge, hoge, hgc, hogc, hr] at hf

/-- Witness for C4 at the concrete relative build: both Jacobian inputs
effectively come from the kinematic model. -/
theorem C4_jacobian_inputs_witness :
    ((makeTasks robotEx false false false false
        (PreGrasp.init gEx hEx (some (ogEx, ohEx)))).state.feature).isSome
      = true ∧
    gEx.controllable = true ∧ ogEx.controllable = true ∧
    Option.map (fun fs => fs.jaJja.effective)
        (makeTasks robotEx false false false false
          (PreGrasp.init gEx hEx (some (ogEx, ohEx)))).state.feature
      = some (some (SigExpr.kin ("J" ++ gEx.link))) ∧
    Option.map (fun fs => fs.jbJjb.effective)
        (makeTasks robotEx false false false false
          (PreGrasp.init gEx hEx (some (ogEx, ohEx)))).state.feature
      = some (some (SigExpr.kin ("J" ++ ogEx.link))) := by
  have hx := ((C4_jacobian_inputs gEx hEx (some (ogEx, ohEx)) robotEx
    false false false false (by decide)).2 ogEx ohEx rfl).1 (by decide)
  exact ⟨by decide, hx.1, hx.2.1, hx.2.2.1, hx.2.2.2⟩

/-- C7: every strategy that builds a task creates one control task
holding exactly the built feature, an adaptive gain with
computeParameters (0.9, 0.1, 0.3, 1.0) in that order, plugs the gain
output into the task controlGain input and the task error into the gain
error input. -/
theorem C7_task_and_gain_wiring (g h : OpFrame)
    (other : Option (OpFrame × OpFrame)) (robot : SotRobot)
    (mObj mGrip mOther wd : Bool)
    (hf : ((makeTasks robot mObj mGrip mOther wd
        (PreGrasp.init g h other)).state.feature).isSome = true) :
    Option.map (fun t => t.features)
        (makeTasks robot mObj mGrip mOther wd
          (PreGrasp.init g h other)).state.task
      = Option.map (fun fs => [fs.name])
          (makeTasks robot mObj mGrip mOther wd
            (PreGrasp.init g h other)).state.feature ∧
    Option.map (fun gn => gn.params)
        (makeTasks robot mObj mGrip mOther wd
          (PreGrasp.init g h other)).state.gain
      = some (some ((9 : ℚ)/10, (1 : ℚ)/10, (3 : ℚ)/10, (1 : ℚ))) ∧
    Option.map (fun t => t.controlGainSrc)
        (makeTasks robot mObj mGrip mOther wd
          (PreGrasp.init g h other)).state.task
      = Option.map (fun gn => some gn.name)
          (makeTasks robot mObj mGrip mOther wd
            (PreGrasp.init g h other)).state.gain ∧
    Option.map (fun gn => gn.errorSrc)
        (makeTasks robot mObj mGrip mOther wd
          (PreGrasp.init g h other)).state.gain
      = Option.map (fun t => some t.name)
          (makeTasks robot mObj mGrip mOther wd
            (PreGrasp.init g h other)).state.task := by
  cases other with
  | none =>
    cases hge : g.enabled
    · simp [makeTasks, Res.state, hge] at hf
    · cases hgc : g.controllable
      · simp [makeTasks, Res.state, hge, hgc] at hf
      · cases mGrip <;> cases mObj <;> cases wd <;>
          simp [makeTasks, makeAbsolute, Res.state, hge, hgc]
  | some p =>
    obtain ⟨og, oh⟩ := p
    cases hge : g.enabled
    · simp [makeTasks, Res.state, hge] at hf
    · cases hoge : og.enabled
      · simp [makeTasks, Res.state, hge, hoge] at hf
      · cases hgc : g.controllable
        · cases hogc : og.controllable
          · simp [makeTasks, Res.state, hge, hoge, hgc, hogc] at hf
          · by_cases hsw : ¬ h.robotName = oh.robotName ∧
                g.robotName = oh.robotName
            · by_cases hgl : g.link = oh.link
              · cases mGrip <;> cases mOther <;> cases wd <;>
                  simp [makeTasks, makeAbsoluteBasedOnOther, Res.state,
                    hge, hoge, hgc, hogc, hsw, hsw.2, hgl]
              · simp [makeTasks, makeAbsoluteBasedOnOther, Res.state,
                  hge, hoge, hgc, hogc, hsw, hsw.2, hgl] at hf
            · by_cases hr : h.robotName = oh.robotName
              · by_cases hl : h.link = oh.link
                · cases mGrip <;> cases mOther <;> cases wd <;>
                    simp [makeTasks, makeAbsoluteBasedOnOther, Res.state,
                      hge, hoge, hgc, hogc, hsw, hr, hl]
                · simp [makeTasks, makeAbsoluteBasedOnOther, Res.state,
                    hge, hoge, hgc, hogc, hsw, hr, hl] at hf
              · have hgr : ¬ g.robotName = oh.robotName :=
                  fun hh => hsw ⟨hr, hh⟩
                simp [makeTasks, makeAbsoluteBasedOnOther, Res.state,
                  hge, hoge, hgc, hogc, hr, hgr] at hf
        · cases hogc : og.controllable
          · cases mGrip <;> cases mObj <;> cases wd <;>
              simp [makeTasks, makeAbsolute, Res.state, hge, hoge, hgc, hogc]
          · by_cases hr : h.robotName = oh.robotName
            · by_cases hl : h.link = oh.link
              · cases mGrip <;> cases mOther <;> cases wd <;>
                  simp [makeTasks, makeRelativeTask, Res.state,
                    hge, hoge, hgc, hogc, hr, hl]
              · simp [makeTasks, makeRelativeTask, Res.state,
                  hge, hoge, hgc, hogc, hr, hl] at hf
            · simp [makeTasks, makeRelativeTask, Res.state,
                hge, hoge, hgc, hogc, hr] at hf

/-- Witness for C7 at the concrete absolute build. -/
theorem C7_task_and_gain_wiring_witness :
    ((makeTasks robotEx false false false false
        (PreGrasp.init gEx hEx none)).state.feature).isSome = true ∧
    Option.map (fun gn => gn.params)
        (makeTasks robotEx false false false false
          (PreGrasp.init gEx hEx none)).state.gain
      = some (some ((9 : ℚ)/10, (1 : ℚ)/10, (3 : ℚ)/10, (1 : ℚ))) :=
  ⟨by decide,
    (C7_task_and_gain_wiring gEx hEx none robotEx
      false false false false (by decide)).2.1⟩

/-- C3 counterexample: in a concrete AbsoluteBasedOnOther build (with
measurement of the other gripper position) the jbMfb input of the
feature is a TF-measured product, not the constant
otherGripper.lMf * otherHandle.lMf^-1 * handle.lMf of policy (a). -/
theorem C3_jbMfb_policy_counterexample :
    (makeTasks robotEx false false true false
        (PreGrasp.init gFixEx hEx (some (ogEx, ohEx)))).state.strategy
      = some Strategy.absoluteBasedOnOther ∧
    Option.map (fun fs => fs.jbMfb.effective)
        (makeTasks robotEx false false true false
          (PreGrasp.init gFixEx hEx (some (ogEx, ohEx)))).state.feature
      = some (some (SigExpr.mulE
          (.tfDef (ohEx.fullLink ++ measSuffix ++ "_wrt_" ++ ogEx.link ++ measSuffix)
            (.mul ogEx.lMf (.inv ohEx.lMf)))
          (.constP hEx.lMf))) ∧
    Option.map (fun fs => fs.jbMfb.effective)
        (makeTasks robotEx false false true false
          (PreGrasp.init gFixEx hEx (some (ogEx, ohEx)))).state.feature
      ≠ some (some (SigExpr.constP
          (.mul (.mul ogEx.lMf (.inv ohEx.lMf)) hEx.lMf))) :=
  ⟨by decide, by decide, by decide⟩

/-- C3 amended: the Relative strategy estimates jbMfb by policy (a), the
constant otherGripper.lMf * otherHandle.lMf^-1 * handle.lMf assigned at
build time and never plugged to a live source; the AbsoluteBasedOnOther
strategy instead wires a measured estimate: with measurement of the
other gripper position, the TF measured other-gripper-to-object pose
(defaulting to the constant otherGripper.lMf * otherHandle.lMf^-1)
times handle.lMf; without it, a guarded selector that uses kinematics
plus the TF object measurement when the measurement is available and
falls back to the policy (a) constant otherwise. -/
theorem C3_jbMfb_policy_amended (g h : OpFrame)
    (other : Option (OpFrame × OpFrame)) (robot : SotRobot)
    (mObj mGrip mOther wd : Bool)
    (hf : ((makeTasks robot mObj mGrip mOther wd
        (PreGrasp.init g h other)).state.feature).isSome = true) :
    ∀ og oh, other = some (og, oh) →
      ((makeTasks robot mObj mGrip mOther wd
          (PreGrasp.init g h other)).state.strategy = some Strategy.relative →
        Option.map (fun fs => fs.jbMfb.plugged)
            (makeTasks robot mObj mGrip mOther wd
              (PreGrasp.init g h other)).state.feature = some none ∧
        Option.map (fun fs => fs.jbMfb.assigned)
            (makeTasks robot mObj mGrip mOther wd
              (PreGrasp.init g h other)).state.feature
          = some (some (SigExpr.constP
              (.mul (.mul og.lMf (.inv oh.lMf)) h.lMf)))) ∧
      ((makeTasks robot mObj mGrip mOther wd
          (PreGrasp.init g h other)).state.strategy
            = some Strategy.absoluteBasedOnOther → mOther = true →
        Option.map (fun fs => fs.jbMfb.plugged)
            (makeTasks robot mObj mGrip mOther wd
              (PreGrasp.init g h other)).state.feature
          = some (some (SigExpr.mulE
              (.tfDef (oh.fullLink ++ measSuffix ++ "_wrt_" ++
                  og.link ++ measSuffix)
                (.mul og.lMf (.inv oh.lMf)))
              (.constP (makeTasks robot mObj mGrip mOther wd
                  (PreGrasp.init g h other)).state.handle.lMf)))) ∧
      ((makeTasks robot mObj mGrip mOther wd
          (PreGrasp.init g h other)).state.strategy
            = some Strategy.absoluteBasedOnOther → mOther = false →
        Option.map (fun fs => fs.jbMfb.plugged)
            (makeTasks robot mObj mGrip mOther wd
              (PreGrasp.init g h other)).state.feature
          = some (some (SigExpr.ifMeas (oh.fullLink ++ measSuffix)
              (SigExpr.mulE (.invE (.kin og.link))
                (SigExpr.mulE (.kin robot.cameraFrame)
                  (SigExpr.mulE (.tf (oh.fullLink ++ measSuffix))
                    (.constP (makeTasks robot mObj mGrip mOther wd
                        (PreGrasp.init g h other)).state.handle.lMf))))
              (.constP (.mul (.mul og.lMf (.inv oh.lMf))
                  (makeTasks robot mObj mGrip mOther wd
                    (PreGrasp.init g h other)).state.handle.lMf))))) := by
  intro og oh hother
  subst hother
  cases hge : g.enabled
  · simp [makeTasks, Res.state, hge] at hf
  · cases hoge : og.enabled
    · simp [makeTasks, Res.state, hge, hoge] at hf
    · cases hgc : g.controllable
      · cases hogc : og.controllable
        · simp [makeTasks, Res.state, hge, hoge, hgc, hogc] at hf
        · by_cases hsw : ¬ h.robotName = oh.robotName ∧
              g.robotName = oh.robotName
          · by_cases hgl : g.link = oh.link
            · cases mGrip <;> cases mOther <;> cases wd <;>
                simp [makeTasks, makeAbsoluteBasedOnOther, Res.state,
                  hge, hoge, hgc, hogc, hsw, hsw.2, hgl]
            · simp [makeTasks, makeAbsoluteBasedOnOther, Res.state,
                hge, hoge, hgc, hogc, hsw, hsw.2, hgl] at hf
          · by_cases hr : h.robotName = oh.robotName
            · by_cases hl : h.link = oh.link
              · cases mGrip <;> cases mOther <;> cases wd <;>
                  simp [makeTasks, makeAbsoluteBasedOnOther, Res.state,
                    hge, hoge, hgc, hogc, hsw, hr, hl]
              · simp [makeTasks, makeAbsoluteBasedOnOther, Res.state,
                  hge, hoge, hgc, hogc, hsw, hr, hl] at hf
            · have hgr : ¬ g.robotName = oh.robotName :=
                fun hh => hsw ⟨hr, hh⟩
              simp [makeTasks, makeAbsoluteBasedOnOther, Res.state,
                hge, hoge, hgc, hogc, hr, hgr] at hf
      · cases hogc : og.controllable
        · cases mGrip <;> cases mObj <;> cases wd <;>
            simp [makeTasks, makeAbsolute, Res.state, hge, hoge, hgc, hogc]
        · by_cases hr : h.robotName = oh.robotName
          · by_cases hl : h.link = oh.link
            · cases mGrip <;> cases mOther <;> cases wd <;>
                simp [makeTasks, makeRelativeTask, Res.state,
                  hge, hoge, hgc, hogc, hr, hl]
            · simp [makeTasks, makeRelativeTask, Res.state,
                hge, hoge, hgc, hogc, hr, hl] at hf
          · simp [makeTasks, makeRelativeTask, Res.state,
              hge, hoge, hgc, hogc, hr] at hf

/-- Witness for C3 amended at the concrete relative build. -/
theorem C3_jbMfb_policy_amended_witness :
    ((makeTasks robotEx false false false false
        (PreGrasp.init gEx hEx (some (ogEx, ohEx)))).state.feature).isSome
      = true ∧
    Option.map (fun fs => fs.jbMfb.assigned)
        (makeTasks robotEx false false false false
          (PreGrasp.init gEx hEx (some (ogEx, ohEx)))).state.feature
      = some (some (SigExpr.constP
          (.mul (.mul ogEx.lMf (.inv ohEx.lMf)) hEx.lMf))) :=
  ⟨by decide,
    (((C3_jbMfb_policy_amended gEx hEx (some (ogEx, ohEx)) robotEx
      false false false false (by decide)) ogEx ohEx rfl).1 (by decide)).2⟩

/-- C6: the enablement preconditions of makeTasks and the
handle/otherHandle agreement preconditions of the Relative and
AbsoluteBasedOnOther builders fail as assertion errors, and when all of
them hold a run from a fresh PreGrasp raises nothing. -/
theorem C6_assertion_preconditions (g h : OpFrame)
    (other : Option (OpFrame × OpFrame)) (robot : SotRobot)
    (mObj mGrip mOther wd : Bool) :
    (g.enabled = false →
      (makeTasks robot mObj mGrip mOther wd (PreGrasp.init g h other)).errMsg
        = some "AssertionError: gripper.enabled") ∧
    (∀ og oh, other = some (og, oh) → g.enabled = true → og.enabled = false →
      (makeTasks robot mObj mGrip mOther wd (PreGrasp.init g h other)).errMsg
        = some "AssertionError: otherGripper is None or otherGripper.enabled") ∧
    (∀ s og oh, s.otherGripper = some og → s.otherHandle = some oh →
      ¬ (s.handle.robotName = oh.robotName ∧ s.handle.link = oh.link) →
      (makeRelativeTask robot mObj mGrip mOther wd s).isOk = false ∧
      ((makeRelativeTask robot mObj mGrip mOther wd s).errMsg
          = some "AssertionError: handle.robotName == otherHandle.robotName" ∨
       (makeRelativeTask robot mObj mGrip mOther wd s).errMsg
          = some "AssertionError: handle.link == otherHandle.link")) ∧
    (∀ s og oh, s.otherGripper = some og → s.otherHandle = some oh →
      ¬ (s.handle.robotName = oh.robotName ∧ s.handle.link = oh.link) →
      (makeAbsoluteBasedOnOther robot mObj mGrip mOther wd s).isOk = false ∧
      ((makeAbsoluteBasedOnOther robot mObj mGrip mOther wd s).errMsg
          = some "AssertionError: handle.robotName == otherHandle.robotName" ∨
       (makeAbsoluteBasedOnOther robot mObj mGrip mOther wd s).errMsg
          = some "AssertionError: handle.link == otherHandle.link")) ∧
    (g.enabled = true →
      (∀ og oh, other = some (og, oh) → og.enabled = true ∧
        h.robotName = oh.robotName ∧ h.link = oh.link) →
      (makeTasks robot mObj mGrip mOther wd
        (PreGrasp.init g h other)).isOk = true) := by
  refine ⟨?_, ?_, ?_, ?_, ?_⟩
  · intro hge
    simp [makeTasks, hge]
  · intro og oh hother hge hoge
    subst hother
    simp [makeTasks, hge, hoge]
  · intro s og oh hog hoh hmis
    by_cases hr : s.handle.robotName = oh.robotName
    · have hl : ¬ s.handle.link = oh.link := fun hl => hmis ⟨hr, hl⟩
      simp [makeRelativeTask, hog, hoh, hr, hl]
    · simp [makeRelativeTask, hog, hoh, hr]
  · intro s og oh hog hoh hmis
    by_cases hr : s.handle.robotName = oh.robotName
    · have hl : ¬ s.handle.link = oh.link := fun hl => hmis ⟨hr, hl⟩
      simp [makeAbsoluteBasedOnOther, hog, hoh, hr, hl]
    · simp [makeAbsoluteBasedOnOther, hog, hoh, hr]
  · intro hge hother
    cases other with
    | none =>
      cases hgc : g.controllable <;> cases mGrip <;> cases mObj <;> cases wd <;>
        simp [makeTasks, makeAbsolute, hge, hgc]
    | some p =>
      obtain ⟨og, oh⟩ := p
      obtain ⟨hoge, hr, hl⟩ := hother og oh rfl
      cases hgc : g.controllable <;> cases hogc : og.controllable
      · simp [makeTasks, hge, hoge, hgc, hogc]
      · cases mGrip <;> cases mOther <;> cases wd <;>
          simp [makeTasks, makeAbsoluteBasedOnOther, hge, hoge, hgc, hogc,
            hr, hl]
      · cases mGrip <;> cases mObj <;> cases wd <;>
          simp [makeTasks, makeAbsolute, hge, hoge, hgc, hogc]
      · cases mGrip <;> cases mOther <;> cases wd <;>
          simp [makeTasks, makeRelativeTask, hge, hoge, hgc, hogc, hr, hl]

/-- Witness for C6: a disabled gripper raises the first assertion, and a
well-formed relative grasp raises nothing. -/
theorem C6_assertion_preconditions_witness :
    gDisEx.enabled = false ∧
    (makeTasks robotEx false false false false
        (PreGrasp.init gDisEx hEx none)).errMsg
      = some "AssertionError: gripper.enabled" ∧
    (makeTasks robotEx false false false false
        (PreGrasp.init gEx hEx (some (ogEx, ohEx)))).isOk = true :=
  ⟨rfl,
    (C6_assertion_preconditions gDisEx hEx none robotEx
      false false false false).1 rfl,
    (C6_assertion_preconditions gEx hEx (some (ogEx, ohEx)) robotEx
      false false false false).2.2.2.2 rfl
      (by intro og oh hp; cases hp; exact ⟨rfl, rfl, rfl⟩)⟩

/-- C9: the withDerivative flag never changes the built objects: the
task always ends with setWithDerivative false, and a run with the flag
raised is identical to the run without it except for one extra printed
warning when a task was built (no warning, and no difference at all, on
error or NoOp runs). -/
theorem C9_derivative_flag_inert (g h : OpFrame)
    (other : Option (OpFrame × OpFrame)) (robot : SotRobot)
    (mObj mGrip mOther : Bool) :
    (∀ wd t, (makeTasks robot mObj mGrip mOther wd
        (PreGrasp.init g h other)).state.task = some t →
      t.withDerivative = some false) ∧
    (makeTasks robot mObj mGrip mOther true
        (PreGrasp.init g h other)).state
      = { (makeTasks robot mObj mGrip mOther false
            (PreGrasp.init g h other)).state with
          prints := (makeTasks robot mObj mGrip mOther false
              (PreGrasp.init g h other)).state.prints ++
            (if ((makeTasks robot mObj mGrip mOther false
                (PreGrasp.init g h other)).state.task).isSome
              then [derivWarning] else []) } ∧
    (makeTasks robot mObj mGrip mOther true
        (PreGrasp.init g h other)).isOk
      = (makeTasks robot mObj mGrip mOther false
          (PreGrasp.init g h other)).isOk ∧
    (makeTasks robot mObj mGrip mOther true
        (PreGrasp.init g h other)).errMsg
      = (makeTasks robot mObj mGrip mOther false
          (PreGrasp.init g h other)).errMsg := by
  cases other with
  | none =>
    cases hge : g.enabled
    · simp [makeTasks, Res.state, hge]
    · cases hgc : g.controllable
      · simp [makeTasks, Res.state, hge, hgc]
      · cases mGrip <;> cases mObj <;>
          simp [makeTasks, makeAbsolute, Res.state, hge, hgc,
            Bool.forall_bool]
  | some p =>
    obtain ⟨og, oh⟩ := p
    cases hge : g.enabled
    · simp [makeTasks, Res.state, hge]
    · cases hoge : og.enabled
      · simp [makeTasks, Res.state, hge, hoge]
      · cases hgc : g.controllable
        · cases hogc : og.controllable
          · simp [makeTasks, Res.state, hge, hoge, hgc, hogc]
          · by_cases hsw : ¬ h.robotName = oh.robotName ∧
                g.robotName = oh.robotName
            · by_cases hgl : g.link = oh.link
              · cases mGrip <;> cases mOther <;>
                  simp [makeTasks, makeAbsoluteBasedOnOther, Res.state,
                    hge, hoge, hgc, hogc, hsw, hsw.2, hgl, Bool.forall_bool]
              · simp [makeTasks, makeAbsoluteBasedOnOther, Res.state,
                  hge, hoge, hgc, hogc, hsw, hsw.2, hgl]
            · by_cases hr : h.robotName = oh.robotName
              · by_cases hl : h.link = oh.link
                · cases mGrip <;> cases mOther <;>
                    simp [makeTasks, makeAbsoluteBasedOnOther, Res.state,
                      hge, hoge, hgc, hogc, hsw, hr, hl, Bool.forall_bool]
                · simp [makeTasks, makeAbsoluteBasedOnOther, Res.state,
                    hge, hoge, hgc, hogc, hsw, hr, hl]
              · have hgr : ¬ g.robotName = oh.robotName :=
                  fun hh => hsw ⟨hr, hh⟩
                simp [makeTasks, makeAbsoluteBasedOnOther, Res.state,
                  hge, hoge, hgc, hogc, hr, hgr]
        · cases hogc : og.controllable
          · cases mGrip <;> cases mObj <;>
              simp [makeTasks, makeAbsolute, Res.state, hge, hoge, hgc, hogc,
                Bool.forall_bool]
          · by_cases hr : h.robotName = oh.robotName
            · by_cases hl : h.link = oh.link
              · cases mGrip <;> cases mOther <;>
                  simp [makeTasks, makeRelativeTask, Res.state,
                    hge, hoge, hgc, hogc, hr, hl, Bool.forall_bool]
              · simp [makeTasks, makeRelativeTask, Res.state,
                  hge, hoge, hgc, hogc, hr, hl]
            · simp [makeTasks, makeRelativeTask, Res.state,
                hge, hoge, hgc, hogc, hr]

/-- Witness for C9: the concrete absolute build with the flag raised has
its derivative term disabled. -/
theorem C9_derivative_flag_inert_witness :
    (makeTasks robotEx false false false true
        (PreGrasp.init gEx hEx none)).state.task
      = some (((makeTasks robotEx false false false true
          (PreGrasp.init gEx hEx none)).state.task).getD { name := "" }) ∧
    (((makeTasks robotEx false false false true
        (PreGrasp.init gEx hEx none)).state.task).getD
          { name := "" }).withDerivative = some false :=
  ⟨by decide,
    (C9_derivative_flag_inert gEx hEx none robotEx false false false).1
      true (((makeTasks robotEx false false false true
        (PreGrasp.init gEx hEx none)).state.task).getD { name := "" })
      (by decide)⟩

end AgimusSot
